import Mathlib

/-!
Verification of the Agile Mini API backend (src/backend/main.py) against its
specification.  The embedding is shallow: Python datetimes are modelled as
natural numbers of seconds since an arbitrary epoch, and the date portion of
a datetime (Python `.date()`, compared by its `toordinal`) is the day index
`seconds / 86400`.  SQLAlchemy rows become Lean structures, `None`-able
columns become `Option`, and endpoint bodies become pure functions over an
explicit store.  Pydantic payloads are modelled after parsing: a `TaskCreate`
value carries the defaulted field values, and the field validators are a
separate function run before the endpoint body, mirroring the fact that
validation happens before any mutation.
-/

namespace AgileMini

/-- Python `datetime.date()` compared via `toordinal`: the calendar-day index
of a datetime, which is modelled as Nat seconds since an arbitrary epoch. -/
def DateTime.date (t : Nat) : Nat := t / 86400

/-- Row of the `projects` table (class `Project` in main.py). -/
structure Project where
  id : Int
  name : String
  description : Option String := none
  status : String := "Ativo"
  start_date : Option Nat := none
  end_date : Option Nat := none
  created_at : Option Nat := none
deriving DecidableEq, Repr

/-- Row of the `sprints` table (class `Sprint` in main.py). -/
structure Sprint where
  id : Int
  name : String
  start_date : Nat
  end_date : Nat
  status : String := "Ativo"
  project_id : Option Int := none
deriving DecidableEq, Repr

/-- Row of the `tasks` table (class `Task` in main.py). -/
structure Task where
  id : Int
  title : String
  description : Option String := none
  status : String := "To Do"
  project : Option String := none
  sprint_id : Option Int := none
  points : Option Int := none
  priority : String := "Média"
  created_at : Option Nat := none
  started_at : Option Nat := none
  completed_at : Option Nat := none
deriving DecidableEq, Repr

/-- The persistent store: the three tables. -/
structure Store where
  projects : List Project := []
  sprints : List Sprint := []
  tasks : List Task := []
deriving DecidableEq, Repr

/-- The computed sprint lifecycle status (`status_calculado`), exactly the
`if now < s.start_date / elif s.start_date <= now <= s.end_date / else`
cascade shared by `list_sprints`, `create_sprint` and `get_sprint`. -/
def sprint_status_calc (now start_d end_d : Nat) : String :=
  if now < start_d then "Planejado"
  else if start_d ≤ now ∧ now ≤ end_d then "Ativo"
  else "Concluído"

/-- The day enumeration shared by `burndown_chart` and `cfd_chart`: the loop
`current = start.date(); while current <= end.date(): append; current += 1 day`
yields the calendar days `lo, lo+1, ..., hi` (empty when `lo > hi`). -/
def sprintDays (lo hi : Nat) : List Nat :=
  (List.range (hi + 1 - lo)).map (fun i => lo + i)

/-- One element of the `burndown_chart` response. -/
structure BurndownEntry where
  date : Nat
  remaining_tasks : Nat
  remaining_points : Int
deriving DecidableEq, Repr

/-- The remaining-task test of `burndown_chart`:
`completed = t.completed_at.date() if t.completed_at else None;
if not completed or completed > day`. -/
def taskRemainingOn (t : Task) (day : Nat) : Bool :=
  match t.completed_at with
  | none => true
  | some c => decide (day < DateTime.date c)

/-- `burndown_chart` (main.py). The single Python loop accumulating
`remaining_tasks` and `remaining_points` over the tasks is rendered as a
count and a sum over the same remaining predicate; `t.points if t.points
else 0` is `Option.getD 0` (the two agree at `points = 0`). -/
def burndown_chart (s : Sprint) (tasks : List Task) : List BurndownEntry :=
  (sprintDays (DateTime.date s.start_date) (DateTime.date s.end_date)).map (fun day =>
    { date := day
      remaining_tasks := tasks.countP (fun t => taskRemainingOn t day)
      remaining_points :=
        ((tasks.filter (fun t => taskRemainingOn t day)).map (fun t => t.points.getD 0)).sum })

/-- `o.date() <= day` guarded by truthiness of `o` (a `datetime` is always
truthy, so the guard is exactly a `None` test). -/
def dateLEDay (o : Option Nat) (day : Nat) : Bool :=
  match o with
  | some d => decide (DateTime.date d ≤ day)
  | none => false

/-- The per-day classification of `cfd_chart`: Done if completed on or before
the day, else Doing if started on or before the day, else To Do. -/
def cfdStatusOn (t : Task) (day : Nat) : String :=
  if dateLEDay t.completed_at day then "Done"
  else if dateLEDay t.started_at day then "Doing"
  else "To Do"

/-- One element of the `cfd_chart` response (the "To Do" bucket is spelled
`to_do` since the key is not a Lean identifier). -/
structure CfdEntry where
  date : Nat
  to_do : Nat
  doing : Nat
  done : Nat
deriving DecidableEq, Repr

/-- `cfd_chart` (main.py): same day enumeration as burndown, with the
per-day `status_count` dict rendered as three counts of the classifier. -/
def cfd_chart (s : Sprint) (tasks : List Task) : List CfdEntry :=
  (sprintDays (DateTime.date s.start_date) (DateTime.date s.end_date)).map (fun day =>
    { date := day
      to_do := tasks.countP (fun t => cfdStatusOn t day == "To Do")
      doing := tasks.countP (fun t => cfdStatusOn t day == "Doing")
      done := tasks.countP (fun t => cfdStatusOn t day == "Done") })

/-- One element of the `velocity_chart` response. -/
structure VelocityEntry where
  sprint_id : Int
  sprint_name : String
  completed_tasks : Nat
  completed_points : Int
deriving DecidableEq, Repr

/-- `sid in sprint_map`, where `sprint_map = {s.id: s for s in sprints}`. -/
def sprintIdExists (sprints : List Sprint) (sid : Int) : Bool :=
  sprints.any (fun s => s.id == sid)

/-- The keys of the `velocity` defaultdict after the accumulation loop,
listed in the ascending order produced by `sorted(velocity.items())`:
the sprint ids carried by some task that has a completion timestamp and
whose sprint id is present in `sprint_map`. -/
def velocityIds (sprints : List Sprint) (tasks : List Task) : List Int :=
  List.insertionSort (· ≤ ·)
    ((tasks.filterMap (fun t =>
      match t.sprint_id, t.completed_at with
      | some sid, some _ => if sprintIdExists sprints sid then some sid else none
      | _, _ => none)).dedup)

/-- `sprint_map[sid].name`; a dict comprehension keeps the last row for a
duplicated id, hence `getLast?`. -/
def sprintNameFor (sprints : List Sprint) (sid : Int) : String :=
  match (sprints.filter (fun s => s.id == sid)).getLast? with
  | some s => s.name
  | none => ""

/-- The tasks that contribute to the velocity accumulator of sprint `sid`:
`t.sprint_id == sid` and `t.completed_at` truthy. -/
def completedTasksFor (tasks : List Task) (sid : Int) : List Task :=
  tasks.filter (fun t => t.sprint_id == some sid && t.completed_at.isSome)

/-- `velocity_chart` (main.py). The defaultdict accumulation loop followed by
`sorted(velocity.items())` is rendered as: the sorted key list, and for each
key the count and point sum of its contributing tasks. -/
def velocity_chart (sprints : List Sprint) (tasks : List Task) : List VelocityEntry :=
  (velocityIds sprints tasks).map (fun sid =>
    { sprint_id := sid
      sprint_name := sprintNameFor sprints sid
      completed_tasks := (completedTasksFor tasks sid).length
      completed_points :=
        ((completedTasksFor tasks sid).map (fun t => t.points.getD 0)).sum })

/-- The query of `sprint_leadtime`:
`filter(Task.sprint_id == sprint_id, Task.completed_at != None)`. -/
def leadtimeTasks (sid : Int) (tasks : List Task) : List Task :=
  tasks.filter (fun t => t.sprint_id == some sid && t.completed_at.isSome)

/-- `(a - b).total_seconds() / 3600.0`, as an exact rational. -/
def hoursBetween (a b : Nat) : ℚ :=
  ((a : ℚ) - (b : ℚ)) / 3600

/-- The `lead_times` list of `sprint_leadtime`: one entry per queried task
with `t.completed_at and t.created_at` truthy. -/
def leadSeries (sid : Int) (tasks : List Task) : List ℚ :=
  (leadtimeTasks sid tasks).filterMap (fun t =>
    match t.completed_at, t.created_at with
    | some c, some cr => some (hoursBetween c cr)
    | _, _ => none)

/-- The `cycle_times` list of `sprint_leadtime`: one entry per queried task
with `t.completed_at and t.started_at` truthy. -/
def cycleSeries (sid : Int) (tasks : List Task) : List ℚ :=
  (leadtimeTasks sid tasks).filterMap (fun t =>
    match t.completed_at, t.started_at with
    | some c, some st => some (hoursBetween c st)
    | _, _ => none)

/-- `statistics.mean`, only ever applied under a non-emptiness guard. -/
def listMean (l : List ℚ) : ℚ := l.sum / l.length

/-- `statistics.median`: sort ascending; middle element for odd length, the
average of the two middle elements for even length. -/
def listMedian (l : List ℚ) : ℚ :=
  let s := List.insertionSort (· ≤ ·) l
  if s.length % 2 = 1 then s.getD (s.length / 2) 0
  else (s.getD (s.length / 2 - 1) 0 + s.getD (s.length / 2) 0) / 2

/-- Python `round(x, 2)` as exact rational rounding to the nearest
hundredth (Python rounds float ties to even; the difference can only show
at exact half-hundredth values and is immaterial to the claims here). -/
def round2 (q : ℚ) : ℚ := (round (q * 100) : ℤ) / 100

/-- The `sprint_leadtime` response. -/
structure LeadtimeResult where
  lead_time_avg : Option ℚ
  cycle_time_avg : Option ℚ
  lead_time_median : Option ℚ
  cycle_time_median : Option ℚ
deriving DecidableEq, Repr

/-- `sprint_leadtime` (main.py): each aggregate is `None` when its series is
empty, otherwise the rounded mean or median of the series. -/
def sprint_leadtime (sid : Int) (tasks : List Task) : LeadtimeResult :=
  { lead_time_avg :=
      if leadSeries sid tasks = [] then none
      else some (round2 (listMean (leadSeries sid tasks)))
    cycle_time_avg :=
      if cycleSeries sid tasks = [] then none
      else some (round2 (listMean (cycleSeries sid tasks)))
    lead_time_median :=
      if leadSeries sid tasks = [] then none
      else some (round2 (listMedian (leadSeries sid tasks)))
    cycle_time_median :=
      if cycleSeries sid tasks = [] then none
      else some (round2 (listMedian (cycleSeries sid tasks))) }

/-- The three allowed Task status values. -/
def allowedStatuses : List String := ["To Do", "Doing", "Done"]

/-- The three allowed Task priority values. -/
def allowedPriorities : List String := ["Baixa", "Média", "Alta"]

/-- A parsed `TaskCreate` payload, with the pydantic field defaults already
applied (the model is the payload as the endpoint body sees it). -/
structure TaskCreate where
  title : String
  description : Option String := none
  status : String := "To Do"
  project : Option String := none
  sprint_id : Option Int := none
  points : Option Int := none
  priority : String := "Média"
  started_at : Option Nat := none
  completed_at : Option Nat := none
deriving DecidableEq, Repr

/-- The `status` and `priority` validators of `TaskCreate`, in field order. -/
def statusPriorityCheck (p : TaskCreate) : Except String Unit :=
  if p.status ∈ allowedStatuses then
    if p.priority ∈ allowedPriorities then .ok ()
    else .error "Prioridade inválida"
  else .error "Status inválido"

/-- The three `TaskCreate` field validators, run by pydantic at parse time,
before the endpoint body and hence before any store mutation: `points` is
rejected when supplied and negative (`None` bypasses the check), then
`status` and `priority` are rejected when outside their three-value lists. -/
def taskCreate_validators (p : TaskCreate) : Except String Unit :=
  match p.points with
  | some v =>
    if v < 0 then .error "Points devem ser positivos" else statusPriorityCheck p
  | none => statusPriorityCheck p

/-- Python truthiness of an optional integer field: `None` and `0` are
falsy, every other value truthy. -/
def truthyOptInt : Option Int → Bool
  | none => false
  | some v => v != 0

/-- The row inserted by `create_task`: the payload fields plus the
server-assigned id and the `created_at` column default (`utcnow`). -/
def taskFromCreate (now : Nat) (p : TaskCreate) (nid : Int) : Task :=
  { id := nid
    title := p.title
    description := p.description
    status := p.status
    project := p.project
    sprint_id := p.sprint_id
    points := p.points
    priority := p.priority
    created_at := some now
    started_at := p.started_at
    completed_at := p.completed_at }

/-- `create_task` (main.py): pydantic validation first, then — only when
`task.sprint_id` is truthy — the sprint lookup (404 when absent) and the
temporal containment checks, then the insert. The store is returned
unchanged on every rejection path. -/
def create_task (now : Nat) (p : TaskCreate) (nid : Int) (st : Store) :
    Except String Task × Store :=
  match taskCreate_validators p with
  | .error e => (.error e, st)
  | .ok _ =>
    if truthyOptInt p.sprint_id then
      match (st.sprints.filter (fun s => s.id == p.sprint_id.getD 0)).head? with
      | none => (.error "Sprint não encontrado", st)
      | some sprint =>
        if (match p.started_at with
            | some sa => decide (sa < sprint.start_date)
            | none => false) then
          (.error "A data de início da tarefa não pode ser anterior à data de início do sprint", st)
        else if (match p.completed_at with
            | some ca => decide (sprint.end_date < ca)
            | none => false) then
          (.error "A data de conclusão da tarefa não pode ser posterior à data de término do sprint", st)
        else
          (.ok (taskFromCreate now p nid), { st with tasks := st.tasks ++ [taskFromCreate now p nid] })
    else
      (.ok (taskFromCreate now p nid), { st with tasks := st.tasks ++ [taskFromCreate now p nid] })

/-- A parsed `SprintCreate` payload (`SprintBase` has no field validators). -/
structure SprintCreate where
  name : String
  start_date : Nat
  end_date : Nat
  status : String := "Ativo"
  project_id : Option Int := none
deriving DecidableEq, Repr

/-- The row inserted by `create_sprint`. -/
def sprintFromCreate (p : SprintCreate) (nid : Int) : Sprint :=
  { id := nid
    name := p.name
    start_date := p.start_date
    end_date := p.end_date
    status := p.status
    project_id := p.project_id }

/-- `create_sprint` (main.py): only when `sprint.project_id` is truthy, the
project lookup (404 when absent) and the date-bounds checks (each date bound
itself guarded by truthiness of the project column), then the insert. -/
def create_sprint (p : SprintCreate) (nid : Int) (st : Store) :
    Except String Sprint × Store :=
  if truthyOptInt p.project_id then
    match (st.projects.filter (fun pr => pr.id == p.project_id.getD 0)).head? with
    | none => (.error "Projeto não encontrado", st)
    | some pr =>
      if (match pr.start_date with
          | some ps => decide (p.start_date < ps)
          | none => false) then
        (.error "A data de início do sprint não pode ser anterior à data de início do projeto", st)
      else if (match pr.end_date with
          | some pe => decide (pe < p.end_date)
          | none => false) then
        (.error "A data de término do sprint não pode ser posterior à data de término do projeto", st)
      else
        (.ok (sprintFromCreate p nid), { st with sprints := st.sprints ++ [sprintFromCreate p nid] })
  else
    (.ok (sprintFromCreate p nid), { st with sprints := st.sprints ++ [sprintFromCreate p nid] })

/-- A parsed `TaskUpdate` payload under `exclude_unset=True` semantics:
`some v` when the field was supplied with value `v`, `none` when absent
(supplying an explicit JSON null is outside this model). -/
structure TaskUpdate where
  title : Option String := none
  description : Option String := none
  status : Option String := none
  project : Option String := none
  sprint_id : Option Int := none
  points : Option Int := none
  priority : Option String := none
  started_at : Option Nat := none
  completed_at : Option Nat := none
deriving DecidableEq, Repr

/-- One step of the `for key, value in update_data.items(): setattr` loop on
an optional column: a supplied value overwrites, an absent field keeps the
stored value. -/
def patchField {α : Type} (new old : Option α) : Option α :=
  match new with
  | some v => some v
  | none => old

/-- `update_task` (main.py): the auto-stamp
`if status_before != "Doing" and status_after == "Doing" and not
db_task.started_at: db_task.started_at = utcnow()` runs first, then every
supplied payload field is written over the row (including `started_at`,
which can therefore overwrite the stamp). `update_task` performs no sprint
lookup: any supplied `sprint_id` value is stored as-is. -/
def update_task (now : Nat) (t : Task) (u : TaskUpdate) : Task :=
  let status_after := u.status.getD t.status
  let stamped :=
    if t.status ≠ "Doing" ∧ status_after = "Doing" ∧ t.started_at = none then
      { t with started_at := some now }
    else t
  { stamped with
    title := u.title.getD stamped.title
    description := patchField u.description stamped.description
    status := u.status.getD stamped.status
    project := patchField u.project stamped.project
    sprint_id := patchField u.sprint_id stamped.sprint_id
    points := patchField u.points stamped.points
    priority := u.priority.getD stamped.priority
    started_at := patchField u.started_at stamped.started_at
    completed_at := patchField u.completed_at stamped.completed_at }

/-! ## Theorems -/

/-- C2 counterexample: with `start_date = 5 > end_date = 3` (nothing enforces
`start ≤ end`) and `now = 4 > end_date`, the derived status is "Planejado",
not "Concluído" as the claim requires for `now > end_date`. -/
theorem sprint_status_calc_counterexample :
    (3 : Nat) < 4 ∧ sprint_status_calc 4 5 3 = "Planejado" ∧
      "Planejado" ≠ "Concluído" := by
  decide

/-- C2 (amended): for every sprint whose `start_date ≤ end_date` and every
current time, the derived status is total with exactly the three values,
and the three conditions `now < start`, `start ≤ now ≤ end`, `now > end`
characterise them, partitioning time with `now = start` and `now = end`
both yielding "Ativo". -/
theorem sprint_status_calc_spec (now s e : Nat) (h : s ≤ e) :
    (sprint_status_calc now s e = "Planejado" ∨ sprint_status_calc now s e = "Ativo" ∨
      sprint_status_calc now s e = "Concluído") ∧
    (sprint_status_calc now s e = "Planejado" ↔ now < s) ∧
    (sprint_status_calc now s e = "Ativo" ↔ s ≤ now ∧ now ≤ e) ∧
    (sprint_status_calc now s e = "Concluído" ↔ e < now) := by
  unfold sprint_status_calc
  split_ifs with h1 h2 <;>
    refine ⟨by simp, ?_, ?_, ?_⟩ <;>
    simp only [String.reduceEq, false_iff, true_iff, iff_true, iff_false] <;>
    omega

/-- C2 witness: the amended theorem applied at `now = 2, start = 2, end = 6`
(the `now = start_date` boundary). -/
theorem sprint_status_calc_spec_witness :
    (2 : Nat) ≤ 6 ∧
    ((sprint_status_calc 2 2 6 = "Planejado" ∨ sprint_status_calc 2 2 6 = "Ativo" ∨
        sprint_status_calc 2 2 6 = "Concluído") ∧
      (sprint_status_calc 2 2 6 = "Planejado" ↔ (2 : Nat) < 2) ∧
      (sprint_status_calc 2 2 6 = "Ativo" ↔ (2 : Nat) ≤ 2 ∧ (2 : Nat) ≤ 6) ∧
      (sprint_status_calc 2 2 6 = "Concluído" ↔ (6 : Nat) < 2)) :=
  ⟨by decide, sprint_status_calc_spec 2 2 6 (by decide)⟩

/-- C3 counterexample: a stored task with status "To Do" and no `started_at`,
updated with a payload that both sets status to "Doing" and supplies
`started_at = 999`, ends with `started_at = 999` rather than the update time
`5`: the supplied field overwrites the auto-stamp. -/
theorem update_task_started_at_counterexample :
    ({ id := 1, title := "t", status := "To Do" } : Task).status ≠ "Doing" ∧
    ({ status := some "Doing", started_at := some 999 } : TaskUpdate).status = some "Doing" ∧
    ({ id := 1, title := "t", status := "To Do" } : Task).started_at = none ∧
    (update_task 5 { id := 1, title := "t", status := "To Do" }
        { status := some "Doing", started_at := some 999 }).started_at = some 999 ∧
    (999 : Nat) ≠ 5 := by
  decide

/-- C3 (amended): for a payload that does not itself supply `started_at`, the
update stamps `started_at` with the update time exactly when the stored
status is not "Doing", the payload status is "Doing", and `started_at` is
unset; in every other such case `started_at` is left unchanged (in
particular an already-set value is never overwritten by a status-only
update). A payload that supplies `started_at` explicitly takes precedence
over the stamp. -/
theorem update_task_started_at_spec (now : Nat) (t : Task) (u : TaskUpdate)
    (hu : u.started_at = none) :
    (t.status ≠ "Doing" → u.status = some "Doing" → t.started_at = none →
      (update_task now t u).started_at = some now) ∧
    (t.status = "Doing" ∨ u.status.getD t.status ≠ "Doing" ∨ t.started_at ≠ none →
      (update_task now t u).started_at = t.started_at) := by
  constructor
  · intro h1 h2 h3
    simp only [update_task, hu, patchField, h2, Option.getD_some]
    rw [if_pos ⟨h1, trivial, h3⟩]
  · intro h
    simp only [update_task, hu, patchField]
    rw [if_neg]
    rintro ⟨c1, c2, c3⟩
    rcases h with h | h | h
    · exact c1 h
    · exact h c2
    · exact h c3

/-- C3 witness: the amended theorem applied to a stored "To Do" task with no
`started_at` and the status-only payload `{status: "Doing"}` at time `5`. -/
theorem update_task_started_at_spec_witness :
    ({ status := some "Doing" } : TaskUpdate).started_at = none ∧
    ((({ id := 1, title := "t", status := "To Do" } : Task).status ≠ "Doing" →
        ({ status := some "Doing" } : TaskUpdate).status = some "Doing" →
        ({ id := 1, title := "t", status := "To Do" } : Task).started_at = none →
        (update_task 5 { id := 1, title := "t", status := "To Do" }
          { status := some "Doing" }).started_at = some 5) ∧
      (({ id := 1, title := "t", status := "To Do" } : Task).status = "Doing" ∨
          (({ status := some "Doing" } : TaskUpdate).status.getD
            ({ id := 1, title := "t", status := "To Do" } : Task).status) ≠ "Doing" ∨
          ({ id := 1, title := "t", status := "To Do" } : Task).started_at ≠ none →
        (update_task 5 { id := 1, title := "t", status := "To Do" }
          { status := some "Doing" }).started_at =
          ({ id := 1, title := "t", status := "To Do" } : Task).started_at)) :=
  ⟨by decide, update_task_started_at_spec 5 { id := 1, title := "t", status := "To Do" }
    { status := some "Doing" } (by decide)⟩

/-- The `TaskCreate` validators succeed exactly when a supplied `points` is
non-negative and `status` and `priority` lie in their three-value lists;
an absent `points` bypasses its check. -/
lemma taskCreate_validators_ok_iff (p : TaskCreate) :
    taskCreate_validators p = .ok () ↔
      (∀ v, p.points = some v → 0 ≤ v) ∧ p.status ∈ allowedStatuses ∧
        p.priority ∈ allowedPriorities := by
  unfold taskCreate_validators statusPriorityCheck
  rcases hp : p.points with _ | v <;> split_ifs with h1 h2 <;> simp_all <;>
    split_ifs <;> simp_all

/-- C4: the create path rejects, with the store unchanged, whenever the
payload carries `points < 0`, a status outside the three-value enum, or a
priority outside the three-value enum; and the validators succeed exactly
when none of these hold, an absent `points` bypassing its check. -/
theorem create_task_validation_spec (now : Nat) (p : TaskCreate) (nid : Int) (st : Store) :
    (((∃ v, p.points = some v ∧ v < 0) ∨ p.status ∉ allowedStatuses ∨
        p.priority ∉ allowedPriorities) →
      ∃ e, create_task now p nid st = (.error e, st)) ∧
    (taskCreate_validators p = .ok () ↔
      (∀ v, p.points = some v → 0 ≤ v) ∧ p.status ∈ allowedStatuses ∧
        p.priority ∈ allowedPriorities) := by
  refine ⟨?_, taskCreate_validators_ok_iff p⟩
  intro hbad
  have hne : taskCreate_validators p ≠ .ok () := by
    intro hok
    rw [taskCreate_validators_ok_iff] at hok
    obtain ⟨hpts, hst, hpr⟩ := hok
    rcases hbad with ⟨v, hv, hvlt⟩ | h | h
    · have := hpts v hv; omega
    · exact h hst
    · exact h hpr
  cases hv : taskCreate_validators p with
  | error e => exact ⟨e, by simp [create_task, hv]⟩
  | ok u => cases u; exact absurd hv hne

/-- C4 witness: `points = -1` and `priority = "Urgent"` are each rejected
with the (empty) store unchanged. -/
theorem create_task_validation_spec_witness :
    (∃ e, create_task 0 { title := "a", points := some (-1) } 1 {} =
      (.error e, ({} : Store))) ∧
    (∃ e, create_task 0 { title := "b", priority := "Urgent" } 1 {} =
      (.error e, ({} : Store))) :=
  ⟨(create_task_validation_spec 0 { title := "a", points := some (-1) } 1 {}).1
      (Or.inl ⟨-1, rfl, by decide⟩),
    (create_task_validation_spec 0 { title := "b", priority := "Urgent" } 1 {}).1
      (Or.inr (Or.inr (by decide)))⟩

/-- C9: the reference guards test Python truthiness, so `sprint_id = 0` on a
(validator-passing) task payload skips the sprint lookup and containment
checks entirely and the task is inserted carrying `sprint_id = 0`; likewise
`project_id = 0` on a sprint payload skips the project lookup and date
bounds checks and the sprint is inserted. -/
theorem create_guards_truthiness_spec (now : Nat) (p : TaskCreate) (nid : Int) (st : Store)
    (hp : p.sprint_id = some 0) (hv : taskCreate_validators p = .ok ())
    (sp : SprintCreate) (nid2 : Int) (st2 : Store) (hsp : sp.project_id = some 0) :
    create_task now p nid st =
      (.ok (taskFromCreate now p nid),
        { st with tasks := st.tasks ++ [taskFromCreate now p nid] }) ∧
    (taskFromCreate now p nid).sprint_id = some 0 ∧
    create_sprint sp nid2 st2 =
      (.ok (sprintFromCreate sp nid2),
        { st2 with sprints := st2.sprints ++ [sprintFromCreate sp nid2] }) ∧
    (sprintFromCreate sp nid2).project_id = some 0 := by
  refine ⟨?_, by simp [taskFromCreate, hp], ?_, by simp [sprintFromCreate, hsp]⟩
  · simp [create_task, hv, hp, truthyOptInt]
  · simp [create_sprint, hsp, truthyOptInt]

/-- C9 witness: a task payload with `sprint_id = 0` and a sprint payload with
`project_id = 0`, both against empty stores (no sprint or project with id 0
exists), are accepted and inserted. -/
theorem create_guards_truthiness_spec_witness :
    ({ title := "t", sprint_id := some 0 } : TaskCreate).sprint_id = some 0 ∧
    taskCreate_validators { title := "t", sprint_id := some 0 } = .ok () ∧
    ({ name := "s", start_date := 0, end_date := 1, project_id := some 0 } :
        SprintCreate).project_id = some 0 ∧
    (create_task 0 { title := "t", sprint_id := some 0 } 1 {} =
        (.ok (taskFromCreate 0 { title := "t", sprint_id := some 0 } 1),
          { ({} : Store) with
            tasks := ({} : Store).tasks ++ [taskFromCreate 0 { title := "t", sprint_id := some 0 } 1] }) ∧
      (taskFromCreate 0 { title := "t", sprint_id := some 0 } 1).sprint_id = some 0 ∧
      create_sprint { name := "s", start_date := 0, end_date := 1, project_id := some 0 } 2 {} =
        (.ok (sprintFromCreate { name := "s", start_date := 0, end_date := 1, project_id := some 0 } 2),
          { ({} : Store) with
            sprints := ({} : Store).sprints ++
              [sprintFromCreate { name := "s", start_date := 0, end_date := 1, project_id := some 0 } 2] }) ∧
      (sprintFromCreate { name := "s", start_date := 0, end_date := 1, project_id := some 0 } 2).project_id =
        some 0) :=
  ⟨rfl, rfl, rfl,
    create_guards_truthiness_spec 0 { title := "t", sprint_id := some 0 } 1 {} rfl rfl
      { name := "s", start_date := 0, end_date := 1, project_id := some 0 } 2 {} rfl⟩

/-- The day enumeration has one entry per day index. -/
lemma sprintDays_length (lo hi : Nat) : (sprintDays lo hi).length = hi + 1 - lo := by
  simp [sprintDays]

/-- The `i`-th enumerated day is `lo + i`. -/
lemma sprintDays_get (lo hi i : Nat) (h : i < (sprintDays lo hi).length) :
    (sprintDays lo hi).get ⟨i, h⟩ = lo + i := by
  simp [sprintDays]

/-- The `i`-th burndown entry, written out. -/
lemma burndown_chart_get (s : Sprint) (ts : List Task) (i : Nat)
    (hi : i < (burndown_chart s ts).length) :
    (burndown_chart s ts).get ⟨i, hi⟩ =
      { date := DateTime.date s.start_date + i
        remaining_tasks :=
          ts.countP (fun t => taskRemainingOn t (DateTime.date s.start_date + i))
        remaining_points :=
          ((ts.filter (fun t => taskRemainingOn t (DateTime.date s.start_date + i))).map
            (fun t => t.points.getD 0)).sum } := by
  simp [burndown_chart, sprintDays]

/-- C1 counterexample: the sprint 2024-01-01 .. 2024-01-03 (day ordinals
738886 .. 738888) with one task completed 2024-01-02 yields remaining task
counts [1, 0, 0], not [1, 1, 0]: with the strict `completed > day`
comparison the task stops counting as remaining ON its completion day. -/
theorem burndown_chart_counterexample :
    (burndown_chart
        { id := 1, name := "S", start_date := 738886 * 86400, end_date := 738888 * 86400 }
        [{ id := 1, title := "T", sprint_id := some 1,
           completed_at := some (738887 * 86400 + 43200) }]).map
      BurndownEntry.remaining_tasks = [1, 0, 0] ∧
    ([1, 0, 0] : List Nat) ≠ [1, 1, 0] := by
  decide

/-- C1 (amended): for a sprint with `start_date ≤ end_date`, burndown has
exactly one entry per calendar day from the start date to the end date
inclusive, `(end.date - start.date) + 1` entries in chronological order
(entry `i` is day `start.date + i`); on each day a task contributes to
`remaining_tasks` and (with `points.getD 0`) to `remaining_points` exactly
when it has no `completed_at` or its completion date portion is strictly
after the day. For the 2024-01-01 .. 2024-01-03 example the remaining
counts are [1, 0, 0]. -/
theorem burndown_chart_spec (s : Sprint) (ts : List Task)
    (h : s.start_date ≤ s.end_date) :
    (burndown_chart s ts).length =
      (DateTime.date s.end_date - DateTime.date s.start_date) + 1 ∧
    (∀ i (hi : i < (burndown_chart s ts).length),
      ((burndown_chart s ts).get ⟨i, hi⟩).date = DateTime.date s.start_date + i ∧
      ((burndown_chart s ts).get ⟨i, hi⟩).remaining_tasks =
        (ts.filter (fun t => taskRemainingOn t (DateTime.date s.start_date + i))).length ∧
      ((burndown_chart s ts).get ⟨i, hi⟩).remaining_points =
        ((ts.filter (fun t => taskRemainingOn t (DateTime.date s.start_date + i))).map
          (fun t => t.points.getD 0)).sum) ∧
    (∀ t day, taskRemainingOn t day = true ↔
      t.completed_at = none ∨ ∃ c, t.completed_at = some c ∧ day < DateTime.date c) := by
  have hd : DateTime.date s.start_date ≤ DateTime.date s.end_date :=
    Nat.div_le_div_right h
  refine ⟨?_, ?_, ?_⟩
  · simp only [burndown_chart, List.length_map, sprintDays_length]
    omega
  · intro i hi
    rw [burndown_chart_get]
    refine ⟨rfl, ?_, rfl⟩
    simp [List.countP_eq_length_filter]
  · intro t day
    cases hc : t.completed_at <;> simp [taskRemainingOn, hc]

/-- C1 witness: the amended theorem applied to a one-day sprint with no
tasks. -/
theorem burndown_chart_spec_witness :
    (0 : Nat) ≤ 0 ∧
    ((burndown_chart { id := 1, name := "S", start_date := 0, end_date := 0 } []).length =
        (DateTime.date 0 - DateTime.date 0) + 1 ∧
      (∀ i (hi : i <
          (burndown_chart { id := 1, name := "S", start_date := 0, end_date := 0 } []).length),
        ((burndown_chart { id := 1, name := "S", start_date := 0, end_date := 0 } []).get
            ⟨i, hi⟩).date = DateTime.date 0 + i ∧
        ((burndown_chart { id := 1, name := "S", start_date := 0, end_date := 0 } []).get
            ⟨i, hi⟩).remaining_tasks =
          (List.filter (fun t => taskRemainingOn t (DateTime.date 0 + i)) []).length ∧
        ((burndown_chart { id := 1, name := "S", start_date := 0, end_date := 0 } []).get
            ⟨i, hi⟩).remaining_points =
          ((List.filter (fun t => taskRemainingOn t (DateTime.date 0 + i)) []).map
            (fun t => t.points.getD 0)).sum) ∧
      (∀ t day, taskRemainingOn t day = true ↔
        t.completed_at = none ∨ ∃ c, t.completed_at = some c ∧ day < DateTime.date c)) :=
  ⟨by decide,
    burndown_chart_spec { id := 1, name := "S", start_date := 0, end_date := 0 } [] (by decide)⟩

/-- A task still remaining on a later day is remaining on every earlier day:
the remaining predicate is antitone in the day. -/
lemma taskRemainingOn_antitone (t : Task) {d1 d2 : Nat} (h : d1 ≤ d2)
    (h2 : taskRemainingOn t d2 = true) : taskRemainingOn t d1 = true := by
  cases hc : t.completed_at
  · simp [taskRemainingOn, hc]
  · simp [taskRemainingOn, hc] at h2 ⊢
    omega

/-- Counting a pointwise-weaker predicate counts no more elements. -/
lemma countP_le_of_imp {α : Type} (p q : α → Bool) (l : List α)
    (h : ∀ a ∈ l, p a = true → q a = true) : l.countP p ≤ l.countP q := by
  induction l with
  | nil => simp
  | cons a l ih =>
    have ih2 := ih (fun b hb => h b (List.mem_cons_of_mem a hb))
    by_cases hp : p a = true
    · have hq := h a (List.mem_cons_self a l) hp
      simp [List.countP_cons, hp, hq]
      omega
    · simp only [List.countP_cons]
      split_ifs <;> omega

/-- C8: for a fixed task set with fixed completion dates, `remaining_tasks`
is monotonically non-increasing along the burndown output: a later entry
never has more remaining tasks than an earlier one. -/
theorem burndown_monotone_spec (s : Sprint) (ts : List Task) (i j : Nat)
    (hi : i < (burndown_chart s ts).length) (hj : j < (burndown_chart s ts).length)
    (hij : i ≤ j) :
    ((burndown_chart s ts).get ⟨j, hj⟩).remaining_tasks ≤
      ((burndown_chart s ts).get ⟨i, hi⟩).remaining_tasks := by
  rw [burndown_chart_get s ts i hi, burndown_chart_get s ts j hj]
  dsimp only
  exact countP_le_of_imp _ _ ts
    (fun a _ hp => taskRemainingOn_antitone a (by omega) hp)

/-- C8 witness: in a two-day sprint with one task completed on the first
day, the second-day remaining count does not exceed the first-day count. -/
theorem burndown_monotone_spec_witness :
    (0 : Nat) ≤ 1 ∧
    ((burndown_chart { id := 1, name := "S", start_date := 0, end_date := 86400 }
        [{ id := 1, title := "T", completed_at := some 3600 }]).get
      ⟨1, by decide⟩).remaining_tasks ≤
      ((burndown_chart { id := 1, name := "S", start_date := 0, end_date := 86400 }
          [{ id := 1, title := "T", completed_at := some 3600 }]).get
        ⟨0, by decide⟩).remaining_tasks :=
  ⟨by decide,
    burndown_monotone_spec { id := 1, name := "S", start_date := 0, end_date := 86400 }
      [{ id := 1, title := "T", completed_at := some 3600 }] 0 1
      (by decide) (by decide) (by decide)⟩

/-- The CFD classifier is total over the three bucket labels. -/
lemma cfdStatusOn_cases (t : Task) (day : Nat) :
    cfdStatusOn t day = "Done" ∨ cfdStatusOn t day = "Doing" ∨
      cfdStatusOn t day = "To Do" := by
  unfold cfdStatusOn
  split_ifs <;> simp

/-- Each task lands in exactly one CFD bucket, so the three per-day counts
sum to the task count. -/
lemma cfd_counts_sum (ts : List Task) (day : Nat) :
    ts.countP (fun t => cfdStatusOn t day == "To Do") +
      ts.countP (fun t => cfdStatusOn t day == "Doing") +
      ts.countP (fun t => cfdStatusOn t day == "Done") = ts.length := by
  induction ts with
  | nil => simp
  | cons t ts ih =>
    rcases cfdStatusOn_cases t day with h | h | h <;>
      simp [List.countP_cons, h] <;> omega

/-- C7: every entry of the cumulative-flow output classifies each task of
the sprint into exactly one of the three buckets, so the per-day bucket
counts sum to the total number of tasks. -/
theorem cfd_chart_sum_spec (s : Sprint) (ts : List Task) (e : CfdEntry)
    (he : e ∈ cfd_chart s ts) : e.to_do + e.doing + e.done = ts.length := by
  unfold cfd_chart at he
  rcases List.mem_map.mp he with ⟨day, _, rfl⟩
  exact cfd_counts_sum ts day

/-- C7 witness: the sum property at a one-day sprint holding one completed
and one untouched task. -/
theorem cfd_chart_sum_spec_witness :
    (⟨0, 1, 0, 1⟩ : CfdEntry) ∈
      cfd_chart { id := 1, name := "S", start_date := 0, end_date := 0 }
        [{ id := 1, title := "A" }, { id := 2, title := "B", completed_at := some 10 }] ∧
    1 + 0 + 1 =
      ([{ id := 1, title := "A" }, { id := 2, title := "B", completed_at := some 10 }] :
        List Task).length :=
  ⟨by decide,
    cfd_chart_sum_spec { id := 1, name := "S", start_date := 0, end_date := 0 }
      [{ id := 1, title := "A" }, { id := 2, title := "B", completed_at := some 10 }]
      ⟨0, 1, 0, 1⟩ (by decide)⟩

/-- Membership in the sorted velocity key list: exactly the sprint ids that
exist in the sprint table and have some completed task assigned. -/
lemma velocityIds_mem (sprints : List Sprint) (tasks : List Task) (sid : Int) :
    sid ∈ velocityIds sprints tasks ↔
      sprintIdExists sprints sid = true ∧
        ∃ t ∈ tasks, t.sprint_id = some sid ∧ t.completed_at.isSome = true := by
  unfold velocityIds
  rw [List.Perm.mem_iff (List.perm_insertionSort _ _), List.mem_dedup, List.mem_filterMap]
  constructor
  · rintro ⟨t, ht, hf⟩
    rcases h1 : t.sprint_id with _ | sid1 <;> rcases h2 : t.completed_at with _ | c <;>
      rw [h1, h2] at hf
    · exact Option.noConfusion hf
    · exact Option.noConfusion hf
    · exact Option.noConfusion hf
    · have hf2 : (if sprintIdExists sprints sid1 = true then some sid1 else none) =
          some sid := hf
      split_ifs at hf2 with hex
      obtain rfl : sid1 = sid := by simpa using hf2
      exact ⟨hex, t, ht, h1, by simp [h2]⟩
  · rintro ⟨hex, t, ht, h1, h2⟩
    refine ⟨t, ht, ?_⟩
    rcases h2c : t.completed_at with _ | c
    · rw [h2c] at h2; cases h2
    · rw [h1]
      show (if sprintIdExists sprints sid = true then some sid else none) = some sid
      rw [if_pos hex]

/-- The velocity key list is sorted without duplicates, hence strictly
increasing. -/
lemma velocityIds_strict (sprints : List Sprint) (tasks : List Task) :
    List.Pairwise (· < ·) (velocityIds sprints tasks) := by
  have h1 : List.Sorted (· ≤ ·) (velocityIds sprints tasks) :=
    List.sorted_insertionSort _ _
  have h2 : (velocityIds sprints tasks).Nodup :=
    ((List.perm_insertionSort _ _).nodup_iff).mpr (List.nodup_dedup _)
  exact (h1.and h2).imp (fun h => lt_of_le_of_ne h.1 h.2)

/-- C5: velocity emits entries in strictly ascending sprint id order; an
entry with a given sprint id exists exactly when that sprint exists and has
at least one completed task; and every entry carries the sprint name, the
completed task count, and the completed point sum (missing points read as
0) of its sprint. -/
theorem velocity_chart_spec (sprints : List Sprint) (tasks : List Task) :
    List.Pairwise (fun a b : VelocityEntry => a.sprint_id < b.sprint_id)
      (velocity_chart sprints tasks) ∧
    (∀ sid : Int, (∃ e ∈ velocity_chart sprints tasks, e.sprint_id = sid) ↔
      (sprintIdExists sprints sid = true ∧
        ∃ t ∈ tasks, t.sprint_id = some sid ∧ t.completed_at.isSome = true)) ∧
    (∀ e ∈ velocity_chart sprints tasks,
      e.sprint_name = sprintNameFor sprints e.sprint_id ∧
      e.completed_tasks = (completedTasksFor tasks e.sprint_id).length ∧
      e.completed_points =
        ((completedTasksFor tasks e.sprint_id).map (fun t => t.points.getD 0)).sum) := by
  refine ⟨?_, ?_, ?_⟩
  · unfold velocity_chart
    rw [List.pairwise_map]
    exact velocityIds_strict sprints tasks
  · intro sid
    constructor
    · rintro ⟨e, he, rfl⟩
      unfold velocity_chart at he
      rcases List.mem_map.mp he with ⟨sid1, hmem, rfl⟩
      exact (velocityIds_mem sprints tasks sid1).mp hmem
    · intro hr
      exact ⟨_, List.mem_map_of_mem _ ((velocityIds_mem sprints tasks sid).mpr hr), rfl⟩
  · intro e he
    unfold velocity_chart at he
    rcases List.mem_map.mp he with ⟨sid1, _, rfl⟩
    exact ⟨rfl, rfl, rfl⟩

/-- C5 witness fixture: one sprint with two completed tasks (points 3 and 5)
and one uncompleted task (points 9). -/
def velocityWitnessSprints : List Sprint :=
  [{ id := 7, name := "V", start_date := 0, end_date := 10 }]

/-- C5 witness fixture task list. -/
def velocityWitnessTasks : List Task :=
  [{ id := 1, title := "x", sprint_id := some 7, points := some 3, completed_at := some 5 },
   { id := 2, title := "y", sprint_id := some 7, points := some 5, completed_at := some 6 },
   { id := 3, title := "z", sprint_id := some 7, points := some 9 }]

/-- C5 witness: on the fixture, velocity emits the single entry
`{completed_tasks := 2, completed_points := 8}`, and the general theorem
instantiates there. -/
theorem velocity_chart_spec_witness :
    velocity_chart velocityWitnessSprints velocityWitnessTasks =
      [{ sprint_id := 7, sprint_name := "V", completed_tasks := 2, completed_points := 8 }] ∧
    (List.Pairwise (fun a b : VelocityEntry => a.sprint_id < b.sprint_id)
        (velocity_chart velocityWitnessSprints velocityWitnessTasks) ∧
      (∀ sid : Int,
        (∃ e ∈ velocity_chart velocityWitnessSprints velocityWitnessTasks,
          e.sprint_id = sid) ↔
        (sprintIdExists velocityWitnessSprints sid = true ∧
          ∃ t ∈ velocityWitnessTasks,
            t.sprint_id = some sid ∧ t.completed_at.isSome = true)) ∧
      (∀ e ∈ velocity_chart velocityWitnessSprints velocityWitnessTasks,
        e.sprint_name = sprintNameFor velocityWitnessSprints e.sprint_id ∧
        e.completed_tasks = (completedTasksFor velocityWitnessTasks e.sprint_id).length ∧
        e.completed_points =
          ((completedTasksFor velocityWitnessTasks e.sprint_id).map
            (fun t => t.points.getD 0)).sum)) :=
  ⟨by decide, velocity_chart_spec velocityWitnessSprints velocityWitnessTasks⟩

/-- C10: a completed task whose `sprint_id` matches no stored sprint is
filtered out of velocity entirely: prepending it changes nothing, no entry
carries the dangling id, and (third conjunct) `update_task` stores any
supplied `sprint_id` without validation, which is how such dangling
references arise. -/
theorem velocity_dangling_spec (sprints : List Sprint) (ts : List Task) (t : Task) (sid : Int)
    (hc : t.completed_at.isSome = true) (hs : t.sprint_id = some sid)
    (hd : ∀ s ∈ sprints, s.id ≠ sid) :
    velocity_chart sprints (t :: ts) = velocity_chart sprints ts ∧
    (∀ e ∈ velocity_chart sprints (t :: ts), e.sprint_id ≠ sid) ∧
    (∀ now tk u, u.sprint_id = some sid → (update_task now tk u).sprint_id = some sid) := by
  have hex : sprintIdExists sprints sid = false := by
    unfold sprintIdExists
    rw [List.any_eq_false]
    intro s hsm
    simpa using hd s hsm
  obtain ⟨c, hcc⟩ := Option.isSome_iff_exists.mp hc
  have hids : velocityIds sprints (t :: ts) = velocityIds sprints ts := by
    unfold velocityIds
    congr 1
    congr 1
    apply List.filterMap_cons_none
    rw [hs, hcc]
    simp [hex]
  refine ⟨?_, ?_, ?_⟩
  · unfold velocity_chart
    rw [hids]
    apply List.map_congr_left
    intro sid1 h1
    have hex1 : sprintIdExists sprints sid1 = true :=
      ((velocityIds_mem sprints ts sid1).mp h1).1
    have hne : sid ≠ sid1 := by
      rintro rfl
      rw [hex] at hex1
      exact Bool.false_ne_true hex1
    have hct : completedTasksFor (t :: ts) sid1 = completedTasksFor ts sid1 := by
      unfold completedTasksFor
      rw [List.filter_cons]
      have hp : (t.sprint_id == some sid1 && t.completed_at.isSome) = false := by
        rw [hs]
        simp [hne]
      rw [hp]
      simp
    rw [hct]
  · intro e he
    unfold velocity_chart at he
    rcases List.mem_map.mp he with ⟨sid1, h1, rfl⟩
    have hex1 : sprintIdExists sprints sid1 = true :=
      ((velocityIds_mem sprints (t :: ts) sid1).mp h1).1
    intro heq
    dsimp only at heq
    rw [heq, hex] at hex1
    exact Bool.false_ne_true hex1
  · intro now tk u hu
    simp [update_task, patchField, hu]

/-- C10 witness: a completed task pointing to the nonexistent sprint id 5
contributes nothing to velocity over an empty sprint table, and an update
payload carrying `sprint_id = 5` is stored as-is. -/
theorem velocity_dangling_spec_witness :
    ({ id := 1, title := "T", sprint_id := some 5, completed_at := some 0 } :
        Task).completed_at.isSome = true ∧
    ({ id := 1, title := "T", sprint_id := some 5, completed_at := some 0 } :
        Task).sprint_id = some 5 ∧
    (∀ s ∈ ([] : List Sprint), s.id ≠ 5) ∧
    (velocity_chart []
        [{ id := 1, title := "T", sprint_id := some 5, completed_at := some 0 }] =
        velocity_chart [] [] ∧
      (∀ e ∈ velocity_chart []
          [{ id := 1, title := "T", sprint_id := some 5, completed_at := some 0 }],
        e.sprint_id ≠ 5) ∧
      (∀ now tk u, u.sprint_id = some 5 → (update_task now tk u).sprint_id = some 5)) :=
  ⟨rfl, rfl, by simp,
    velocity_dangling_spec [] []
      { id := 1, title := "T", sprint_id := some 5, completed_at := some 0 } 5
      rfl rfl (by simp)⟩

/-- When every task of the sprint lacks a completion timestamp, the leadtime
query returns no rows. -/
lemma leadtimeTasks_eq_nil (sid : Int) (tasks : List Task)
    (h : ∀ t ∈ tasks, t.sprint_id = some sid → t.completed_at = none) :
    leadtimeTasks sid tasks = [] := by
  unfold leadtimeTasks
  rw [List.filter_eq_nil_iff]
  intro t ht hp
  simp only [Bool.and_eq_true, beq_iff_eq, Option.isSome_iff_exists] at hp
  obtain ⟨h1, c, h2⟩ := hp
  rw [h t ht h1] at h2
  cases h2

/-- When no completed task of the sprint has `started_at`, the cycle-time
series is empty. -/
lemma cycleSeries_eq_nil (sid : Int) (tasks : List Task)
    (h : ∀ t ∈ tasks, t.sprint_id = some sid → t.started_at = none) :
    cycleSeries sid tasks = [] := by
  unfold cycleSeries
  rw [List.filterMap_eq_nil_iff]
  intro t ht
  obtain ⟨htm, hpred⟩ := List.mem_filter.mp ht
  simp only [Bool.and_eq_true, beq_iff_eq] at hpred
  obtain ⟨h1, _⟩ := hpred
  have hst := h t htm h1
  rcases hcc : t.completed_at with _ | c <;> rw [hst]

/-- C6: the leadtime endpoint never aggregates an empty series: each mean or
median field is null exactly when its series is empty (in particular when no
task of the sprint is completed, or — for cycle time — when no completed
task was started), and a non-empty series yields the rounded mean and
median in hours. -/
theorem sprint_leadtime_spec (sid : Int) (tasks : List Task) :
    ((∀ t ∈ tasks, t.sprint_id = some sid → t.completed_at = none) →
      sprint_leadtime sid tasks =
        { lead_time_avg := none, cycle_time_avg := none,
          lead_time_median := none, cycle_time_median := none }) ∧
    ((sprint_leadtime sid tasks).lead_time_avg = none ↔ leadSeries sid tasks = []) ∧
    ((sprint_leadtime sid tasks).lead_time_median = none ↔ leadSeries sid tasks = []) ∧
    ((sprint_leadtime sid tasks).cycle_time_avg = none ↔ cycleSeries sid tasks = []) ∧
    ((sprint_leadtime sid tasks).cycle_time_median = none ↔ cycleSeries sid tasks = []) ∧
    ((∀ t ∈ tasks, t.sprint_id = some sid → t.started_at = none) →
      (sprint_leadtime sid tasks).cycle_time_avg = none ∧
      (sprint_leadtime sid tasks).cycle_time_median = none) ∧
    (leadSeries sid tasks ≠ [] →
      (sprint_leadtime sid tasks).lead_time_avg =
        some (round2 (listMean (leadSeries sid tasks))) ∧
      (sprint_leadtime sid tasks).lead_time_median =
        some (round2 (listMedian (leadSeries sid tasks)))) ∧
    (cycleSeries sid tasks ≠ [] →
      (sprint_leadtime sid tasks).cycle_time_avg =
        some (round2 (listMean (cycleSeries sid tasks))) ∧
      (sprint_leadtime sid tasks).cycle_time_median =
        some (round2 (listMedian (cycleSeries sid tasks)))) := by
  refine ⟨?_, ?_, ?_, ?_, ?_, ?_, ?_, ?_⟩
  · intro h
    have hlt : leadtimeTasks sid tasks = [] := leadtimeTasks_eq_nil sid tasks h
    have h1 : leadSeries sid tasks = [] := by unfold leadSeries; rw [hlt]; rfl
    have h2 : cycleSeries sid tasks = [] := by unfold cycleSeries; rw [hlt]; rfl
    unfold sprint_leadtime
    rw [if_pos h1, if_pos h2, if_pos h1, if_pos h2]
  · unfold sprint_leadtime; dsimp only; split_ifs with h <;> simp [h]
  · unfold sprint_leadtime; dsimp only; split_ifs with h <;> simp [h]
  · unfold sprint_leadtime; dsimp only; split_ifs with h <;> simp [h]
  · unfold sprint_leadtime; dsimp only; split_ifs with h <;> simp [h]
  · intro h
    have h2 : cycleSeries sid tasks = [] := cycleSeries_eq_nil sid tasks h
    unfold sprint_leadtime
    dsimp only
    rw [if_pos h2, if_pos h2]
    exact ⟨rfl, rfl⟩
  · intro h
    unfold sprint_leadtime
    dsimp only
    rw [if_neg h, if_neg h]
    exact ⟨rfl, rfl⟩
  · intro h
    unfold sprint_leadtime
    dsimp only
    rw [if_neg h, if_neg h]
    exact ⟨rfl, rfl⟩

/-- C6 witness fixture: two tasks of sprint 1 with lead times 2h and 4h and
no `started_at`. -/
def leadtimeWitnessTasks : List Task :=
  [{ id := 1, title := "a", sprint_id := some 1, created_at := some 0,
     completed_at := some 7200 },
   { id := 2, title := "b", sprint_id := some 1, created_at := some 0,
     completed_at := some 14400 }]

/-- C6 witness: on the 2h/4h fixture the lead-time mean and median are both
3.0 and the cycle-time aggregates are null; on the empty task list every
aggregate is null; and the general theorem instantiates at the empty list. -/
theorem sprint_leadtime_spec_witness :
    sprint_leadtime 1 leadtimeWitnessTasks =
      { lead_time_avg := some 3, cycle_time_avg := none,
        lead_time_median := some 3, cycle_time_median := none } ∧
    (((∀ t ∈ ([] : List Task), t.sprint_id = some 2 → t.completed_at = none) →
        sprint_leadtime 2 [] =
          { lead_time_avg := none, cycle_time_avg := none,
            lead_time_median := none, cycle_time_median := none }) ∧
      ((sprint_leadtime 2 []).lead_time_avg = none ↔ leadSeries 2 [] = []) ∧
      ((sprint_leadtime 2 []).lead_time_median = none ↔ leadSeries 2 [] = []) ∧
      ((sprint_leadtime 2 []).cycle_time_avg = none ↔ cycleSeries 2 [] = []) ∧
      ((sprint_leadtime 2 []).cycle_time_median = none ↔ cycleSeries 2 [] = []) ∧
      ((∀ t ∈ ([] : List Task), t.sprint_id = some 2 → t.started_at = none) →
        (sprint_leadtime 2 []).cycle_time_avg = none ∧
        (sprint_leadtime 2 []).cycle_time_median = none) ∧
      (leadSeries 2 [] ≠ [] →
        (sprint_leadtime 2 []).lead_time_avg =
          some (round2 (listMean (leadSeries 2 []))) ∧
        (sprint_leadtime 2 []).lead_time_median =
          some (round2 (listMedian (leadSeries 2 [])))) ∧
      (cycleSeries 2 [] ≠ [] →
        (sprint_leadtime 2 []).cycle_time_avg =
          some (round2 (listMean (cycleSeries 2 []))) ∧
        (sprint_leadtime 2 []).cycle_time_median =
          some (round2 (listMedian (cycleSeries 2 []))))) := by
  constructor
  · have hl : leadSeries 1 leadtimeWitnessTasks = [2, 4] := by
      simp [leadSeries, leadtimeTasks, leadtimeWitnessTasks, hoursBetween]
      norm_num
    have hc : cycleSeries 1 leadtimeWitnessTasks = [] := by
      simp [cycleSeries, leadtimeTasks, leadtimeWitnessTasks]
    unfold sprint_leadtime
    rw [hl, hc]
    have hne : ([2, 4] : List ℚ) ≠ [] := by simp
    rw [if_neg hne, if_pos (rfl : ([] : List ℚ) = []), if_neg hne,
      if_pos (rfl : ([] : List ℚ) = [])]
    norm_num [listMean, listMedian, List.insertionSort, List.orderedInsert, round2, round_eq]
  · exact sprint_leadtime_spec 2 []

end AgileMini
